import Mathlib

/-!
Verification of the CRM administration backend: a shallow embedding of the
token authority (`app/routers/auth.py`), the admin schema/query endpoints
(`app/routers/admin.py`, `app/routers/admin_simple.py`) and the data model
(`app/models.py`), together with theorems about the security boundary, the
read-only query gate, schema reflection and result serialization.

External collaborators (the SHA-256 digest from `hashlib`, the HMAC signature
from the `python-jose` dependency, and the SQLAlchemy storage engine) are
modelled at their interfaces: digests and signatures are abstract function
parameters, and the storage engine is a record of reflection and execution
functions that may fail.
-/

set_option autoImplicit false

namespace CrmBackend

/-- Python `str.strip()`: remove leading and trailing whitespace. -/
def pyStrip (s : String) : String :=
  String.mk (((s.toList.dropWhile Char.isWhitespace).reverse.dropWhile
    Char.isWhitespace).reverse)

/-- Python `str.upper()` (ASCII letters, which is all the gate compares). -/
def pyUpper (s : String) : String :=
  String.mk (s.toList.map Char.toUpper)

/-- Python `str.startswith(p)`. -/
def pyStartsWith (s p : String) : Bool :=
  p.toList.isPrefixOf s.toList

/-- A scalar value in a storage-engine result row: database NULL, an integer,
or a text value.  Covers the shapes the serialization code distinguishes
(`value is None` versus everything else, which is passed to `str`). -/
inductive SqlValue where
  | null
  | intV (i : Int)
  | textV (s : String)
deriving DecidableEq

/-- `str(value) if value is not None else None` as applied to each scalar of a
result row in `admin.py` and `admin_simple.py`. -/
def serializeValue : SqlValue → Option String
  | .null => none
  | .intV i => some (toString i)
  | .textV s => some s

/-- A Python dict with string keys, as an insertion-ordered association list. -/
abbrev PyAssoc (α : Type) := List (String × α)

/-- Python `d[k] = v`: overwrite in place when the key already exists, append
at the end otherwise (insertion order is preserved, as in CPython dicts). -/
def pyInsertG {α : Type} (d : PyAssoc α) (k : String) (v : α) : PyAssoc α :=
  if d.any (fun p => p.1 == k) then d.map (fun p => if p.1 == k then (k, v) else p)
  else d ++ [(k, v)]

/-- A serialized result row: column name to stringified-scalar-or-null. -/
abbrev PyDict := PyAssoc (Option String)

/-- Keys of a Python dict, in insertion order. -/
def pyKeys {α : Type} (d : PyAssoc α) : List String := d.map Prod.fst

/-- `d.get(k)` / `d[k]` lookup on the association-list model of a dict. -/
def pyLookup {α : Type} (d : PyAssoc α) (k : String) : Option α :=
  (d.find? (fun p => p.1 == k)).map Prod.snd

/-- A row of the `users` table (`models.User`): the Identity record of the
credential store. -/
structure User where
  id : Nat
  email : String
  name : String
  hashed_password : String
  is_active : Bool
deriving DecidableEq

/-- The claims carried by a JWT issued by this backend: the optional `sub`
(subject email) and the `exp` expiry instant, in whole seconds. -/
structure TokenPayload where
  sub : Option String
  exp : Int
deriving DecidableEq

/-- A signed token: the payload together with its signature string. -/
structure SignedToken where
  payload : TokenPayload
  sig : String
deriving DecidableEq

/-- The error outcomes an endpoint can produce, mirroring the
`HTTPException` status codes raised in the source plus an uncaught-exception
outcome (HTTP 500). -/
inductive HError where
  | unauthenticated
  | notFound (detail : String)
  | badRequest (detail : String)
  | serverError (detail : String)
deriving DecidableEq

/-- `ACCESS_TOKEN_EXPIRE_MINUTES` with its default value 30 (`auth.py`). -/
def ACCESS_TOKEN_EXPIRE_MINUTES : Int := 30

/-- `create_access_token` (`auth.py`): stamps `exp = now + expires_delta`
(or `now + 15` minutes when no delta is given) and signs the payload with the
process-wide secret.  The HMAC-SHA256 computation performed by
`jwt.encode` is abstracted as the function `sign`. -/
def create_access_token (sign : String → TokenPayload → String) (secret : String)
    (sub : Option String) (now : Int) (expires_delta : Option Int) : SignedToken :=
  let expire : Int :=
    match expires_delta with
    | some d => now + d
    | none => now + 15 * 60
  let payload : TokenPayload := { sub := sub, exp := expire }
  { payload := payload, sig := sign secret payload }

/-- Modelled from the spec: `jwt.decode(token, SECRET_KEY, algorithms=[ALGORITHM])`
is provided by the `python-jose` dependency, which is not part of the
repository source.  Per the spec, a Token is valid only if "its signature
verifies against the authority's secret and the current time is before
`expires_at`"; every failure is collapsed into one uniform outcome
(`JWTError`), modelled here as `none`. -/
def jwt_decode (sign : String → TokenPayload → String) (secret : String)
    (t : SignedToken) (now : Int) : Option TokenPayload :=
  if t.sig = sign secret t.payload ∧ now < t.payload.exp then some t.payload else none

/-- `db.query(models.User).filter(models.User.email == email).first()`:
the first stored user whose email equals the given one. -/
def first_user_with_email (db : List User) (email : String) : Option User :=
  db.find? (fun u => u.email == email)

/-- `get_current_user` (`auth.py`): reject when the bearer token is missing
(`OAuth2PasswordBearer` returns 401 before the dependency body runs), when
`jwt.decode` fails, when the payload has no `sub`, or when no stored user has
the subject email; otherwise resolve that user. -/
def get_current_user (sign : String → TokenPayload → String) (secret : String)
    (db : List User) (token : Option SignedToken) (now : Int) : Except HError User :=
  match token with
  | none => .error .unauthenticated
  | some t =>
    match jwt_decode sign secret t now with
    | none => .error .unauthenticated
    | some payload =>
      match payload.sub with
      | none => .error .unauthenticated
      | some email =>
        match first_user_with_email db email with
        | none => .error .unauthenticated
        | some user => .ok user

/-- `get_admin_user` (`admin.py` / `admin_simple.py`): passes the resolved
current user straight through (all authenticated users count as admin). -/
def get_admin_user (sign : String → TokenPayload → String) (secret : String)
    (db : List User) (token : Option SignedToken) (now : Int) : Except HError User :=
  get_current_user sign secret db token now

/-- `get_password_hash` (`auth.py`): the SHA-256 hex digest, abstracted as the
function `sha256hex` (the digest itself is computed by `hashlib`). -/
def get_password_hash (sha256hex : String → String) (password : String) : String :=
  sha256hex password

/-- `verify_password` (`auth.py`): re-derive the digest and compare. -/
def verify_password (sha256hex : String → String) (plain hashed : String) : Bool :=
  sha256hex plain == hashed

/-- `authenticate_user` (`auth.py`): look the user up by email and check the
password digest; both failure causes collapse to the same `None`-like result. -/
def authenticate_user (sha256hex : String → String) (db : List User)
    (email password : String) : Option User :=
  match first_user_with_email db email with
  | none => none
  | some user =>
    if verify_password sha256hex password user.hashed_password then some user else none

/-- `login_for_access_token` / `signin` (`auth.py`): authenticate, then issue a
token whose subject is the stored email, expiring after
`ACCESS_TOKEN_EXPIRE_MINUTES`. -/
def login_for_access_token (sha256hex : String → String)
    (sign : String → TokenPayload → String) (secret : String) (db : List User)
    (email password : String) (now : Int) : Except HError SignedToken :=
  match authenticate_user sha256hex db email password with
  | none => .error .unauthenticated
  | some user =>
    .ok (create_access_token sign secret (some user.email) now
      (some (ACCESS_TOKEN_EXPIRE_MINUTES * 60)))

/-- A column as reported by `inspector.get_columns`: name, stringified type,
and the flags the structure endpoint reads (with `str(col.get("default"))`
represented by the already-stringified `defaultValue`). -/
structure ColumnInfo where
  name : String
  typeName : String
  nullable : Bool
  primary_key : Bool
  autoincrement : Bool
  defaultValue : Option String
deriving DecidableEq

/-- A foreign key as reported by `inspector.get_foreign_keys`. -/
structure FkInfo where
  constrained_columns : List String
  referred_table : String
  referred_columns : List String
deriving DecidableEq

/-- An index as reported by `inspector.get_indexes`. -/
structure IndexInfo where
  name : String
  column_names : List String
  unique : Bool
deriving DecidableEq

/-- A raw result set from `db.execute`: the column names of the result
metadata (`result.keys()`, duplicates preserved) and the rows of scalars. -/
structure RawResult where
  keys : List String
  rows : List (List SqlValue)
deriving DecidableEq

/-- The storage engine at its interface: the live table list, the three
reflection calls (each of which may raise, modelled as `Except`), and SQL
execution of a query string (which may also raise). -/
structure Storage where
  tableNames : List String
  getColumns : String → Except String (List ColumnInfo)
  getForeignKeys : String → Except String (List FkInfo)
  getIndexes : String → Except String (List IndexInfo)
  exec : String → Except String RawResult

/-- One observable storage access: a catalog reflection or a query execution.
Endpoint embeddings return the list of accesses they perform, so that
"no storage access happens" is the statement that this list is empty. -/
inductive Access where
  | reflect (what : String)
  | query (sql : String)
deriving DecidableEq

/-- The query strings executed within a trace, in order. -/
def queriesOf (tr : List Access) : List String :=
  tr.foldr (fun a acc => match a with | .query q => q :: acc | .reflect _ => acc) []

/-- The serialization loop of `execute_sql` (`admin.py` lines 180-186):
`for i, value in enumerate(row): if i < len(columns): row_dict[columns[i]] = ...`.
The index guard silently drops values beyond the column list. -/
def buildRowGuarded (columns : List String) : Nat → List SqlValue → PyDict → PyDict
  | _, [], d => d
  | i, v :: vs, d =>
    let d' :=
      if h : i < columns.length then pyInsertG d (columns.get ⟨i, h⟩) (serializeValue v)
      else d
    buildRowGuarded columns (i + 1) vs d'

/-- One row of `execute_sql` output. -/
def rowToDictGuarded (columns : List String) (row : List SqlValue) : PyDict :=
  buildRowGuarded columns 0 row []

/-- The serialization loop of `get_table_data` and `get_all_database_data`
(`admin.py` lines 136-141, `admin_simple.py` lines 48-53):
`row_dict[columns[i]]` with no index guard, so a row longer than the column
list raises `IndexError` (message "list index out of range"). -/
def buildRowStrict (columns : List String) : Nat → List SqlValue → PyDict →
    Except String PyDict
  | _, [], d => .ok d
  | i, v :: vs, d =>
    match columns.get? i with
    | none => .error "list index out of range"
    | some c => buildRowStrict columns (i + 1) vs (pyInsertG d c (serializeValue v))

/-- One row of unguarded serialization. -/
def rowToDictStrict (columns : List String) (row : List SqlValue) : Except String PyDict :=
  buildRowStrict columns 0 row []

/-- Unguarded serialization of a whole result set; the first `IndexError`
aborts the loop, as the uncaught exception would in Python. -/
def rowsToDictsStrict (columns : List String) :
    List (List SqlValue) → Except String (List PyDict)
  | [] => .ok []
  | r :: rs => do
    let d ← rowToDictStrict columns r
    let ds ← rowsToDictsStrict columns rs
    pure (d :: ds)

/-- The response body of `execute_sql`. -/
structure SqlExecResponse where
  success : Bool
  columns : List String
  data : List PyDict
  row_count : Nat
deriving DecidableEq

/-- `execute_sql` (`admin.py` lines 156-196): trim, reject the empty query,
reject anything whose uppercased text does not start with `SELECT`, then
execute and serialize; an engine error becomes a 400 carrying the engine
message. -/
def execute_sql (st : Storage) (request_query : Option String) :
    Except HError SqlExecResponse × List Access :=
  let sql_query := pyStrip (request_query.getD "")
  if sql_query = "" then
    (.error (.badRequest "Query cannot be empty"), [])
  else if ¬ pyStartsWith (pyUpper sql_query) "SELECT" then
    (.error (.badRequest "Only SELECT queries are allowed"), [])
  else
    match st.exec sql_query with
    | .error e => (.error (.badRequest ("Query execution error: " ++ e)), [.query sql_query])
    | .ok r =>
      let columns := r.keys
      let rows := r.rows.map (rowToDictGuarded columns)
      (.ok { success := true, columns := columns, data := rows, row_count := rows.length },
        [.query sql_query])

/-- The data query string interpolated by `get_table_data`
(`f"SELECT * FROM \x7btable_name\x7d LIMIT \x7blimit\x7d OFFSET \x7bskip\x7d"`). -/
def table_data_query (table_name : String) (limit skip : Int) : String :=
  "SELECT * FROM " ++ table_name ++ " LIMIT " ++ toString limit ++ " OFFSET " ++ toString skip

/-- The count query string of `get_table_data`. -/
def count_query (table_name : String) : String :=
  "SELECT COUNT(*) FROM " ++ table_name

/-- `.scalar()`: the first value of the first row, when present. -/
def scalar (r : RawResult) : Option SqlValue :=
  match r.rows with
  | [] => none
  | row :: _ =>
    match row with
    | [] => none
    | v :: _ => some v

/-- The response body of `get_table_data`. -/
structure TableDataResponse where
  table_name : String
  columns : List String
  data : List PyDict
  total_count : Option SqlValue
  showing : Nat
deriving DecidableEq

/-- `get_table_data` (`admin.py` lines 113-153): reflect the live table list
and 404 for an unknown name before any query string is built; otherwise run
the interpolated data query, reflect the columns, serialize the rows, and run
the separate count query for `total_count`.  An engine or serialization
exception escapes the handler (HTTP 500). -/
def get_table_data (st : Storage) (table_name : String) (skip limit : Int) :
    Except HError TableDataResponse × List Access :=
  if table_name ∈ st.tableNames then
    let q := table_data_query table_name limit skip
    match st.exec q with
    | .error e => (.error (.serverError e), [.reflect "table_names", .query q])
    | .ok result =>
      match st.getColumns table_name with
      | .error e =>
        (.error (.serverError e),
          [.reflect "table_names", .query q, .reflect ("columns:" ++ table_name)])
      | .ok cols =>
        let columns := cols.map ColumnInfo.name
        match rowsToDictsStrict columns result.rows with
        | .error e =>
          (.error (.serverError e),
            [.reflect "table_names", .query q, .reflect ("columns:" ++ table_name)])
        | .ok rows =>
          match st.exec (count_query table_name) with
          | .error e =>
            (.error (.serverError e),
              [.reflect "table_names", .query q, .reflect ("columns:" ++ table_name),
                .query (count_query table_name)])
          | .ok rc =>
            (.ok { table_name := table_name, columns := columns, data := rows,
                    total_count := scalar rc, showing := rows.length },
              [.reflect "table_names", .query q, .reflect ("columns:" ++ table_name),
                .query (count_query table_name)])

  else
    (.error (.notFound "Table not found"), [.reflect "table_names"])

/-- `skip`/`limit` as FastAPI query parameters with signature defaults
`skip: int = 0, limit: int = 100`: an omitted parameter takes the default. -/
def get_table_data_params (st : Storage) (table_name : String)
    (skip limit : Option Int) : Except HError TableDataResponse × List Access :=
  get_table_data st table_name (skip.getD 0) (limit.getD 100)

/-- One column entry of the `get_database_structure` response. -/
structure ColumnDescriptor where
  name : String
  typeName : String
  nullable : Bool
  primary_key : Bool
  autoincrement : Bool
  defaultStr : Option String
deriving DecidableEq

/-- The per-column dict built by `get_database_structure` (`admin.py` lines
82-89); `str(col.get("default")) if col.get("default") else None` maps a
missing or falsy (empty-string) default to `None`. -/
def describeColumn (c : ColumnInfo) : ColumnDescriptor :=
  { name := c.name, typeName := c.typeName, nullable := c.nullable,
    primary_key := c.primary_key, autoincrement := c.autoincrement,
    defaultStr :=
      match c.defaultValue with
      | none => none
      | some s => if s = "" then none else some s }

/-- The per-table entry of the `get_database_structure` response. -/
structure TableDescriptor where
  columns : List ColumnDescriptor
  foreign_keys : List FkInfo
  indexes : List IndexInfo
deriving DecidableEq

/-- The three reflection calls `get_database_structure` performs for one
table; the first raised exception aborts the whole computation. -/
def reflectTable (st : Storage) (table_name : String) : Except String TableDescriptor := do
  let cols ← st.getColumns table_name
  let fks ← st.getForeignKeys table_name
  let idxs ← st.getIndexes table_name
  pure { columns := cols.map describeColumn, foreign_keys := fks, indexes := idxs }

/-- The `for table_name in tables` loop of `get_database_structure`: entries
accumulate into a dict, and a reflection exception for any table escapes the
handler at once (HTTP 500) because the body has no `try`/`except`. -/
def structureLoop (st : Storage) : List String → PyAssoc TableDescriptor → List Access →
    Except HError (PyAssoc TableDescriptor) × List Access
  | [], acc, tr => (.ok acc, tr)
  | t :: ts, acc, tr =>
    match reflectTable st t with
    | .error e => (.error (.serverError e), tr ++ [.reflect ("table:" ++ t)])
    | .ok d => structureLoop st ts (pyInsertG acc t d) (tr ++ [.reflect ("table:" ++ t)])

/-- `get_database_structure` (`admin.py` lines 67-110): reflect every known
table into a mapping of `TableDescriptor` entries. -/
def get_database_structure (st : Storage) :
    Except HError (PyAssoc TableDescriptor) × List Access :=
  structureLoop st st.tableNames [] [.reflect "table_names"]

/-- Modelled from the spec: the single-table `describe(table_name)` operation
of the Schema Reflector has no endpoint of its own in `src` (only the
whole-schema and browse endpoints exist); per the spec it "must validate
`table_name` against `list_tables()` before reflecting further", failing with
`UnknownTable` otherwise. -/
def describe (st : Storage) (table_name : String) :
    Except HError TableDescriptor × List Access :=
  if table_name ∈ st.tableNames then
    match reflectTable st table_name with
    | .error e =>
      (.error (.serverError e), [.reflect "table_names", .reflect ("table:" ++ table_name)])
    | .ok d => (.ok d, [.reflect "table_names", .reflect ("table:" ++ table_name)])
  else
    (.error (.notFound "Table not found"), [.reflect "table_names"])

/-- One per-table entry of the `get_all_database_data` response: either a data
dump or the error marker written by the `except` branch. -/
structure TableDump where
  error : Option String
  columns : List String
  data : List PyDict
  count : Nat
deriving DecidableEq

/-- The `try` body of `get_all_database_data` for one table
(`admin_simple.py` lines 39-59): reflect the columns, run `SELECT *`, and
serialize every row without an index guard. -/
def dumpTable (st : Storage) (table_name : String) : Except String TableDump := do
  let cols ← st.getColumns table_name
  let column_names := cols.map ColumnInfo.name
  let result ← st.exec ("SELECT * FROM " ++ table_name)
  let rows ← rowsToDictsStrict column_names result.rows
  pure { error := none, columns := column_names, data := rows, count := rows.length }

/-- The `except` branch of `get_all_database_data` (`admin_simple.py` lines
60-66): the error marker entry. -/
def errorDump (e : String) : TableDump :=
  { error := some e, columns := [], data := [], count := 0 }

/-- The entry actually stored for one table: the dump on success, the error
marker when the per-table `try` caught an exception. -/
def allDataEntry (st : Storage) (table_name : String) : TableDump :=
  match dumpTable st table_name with
  | .error e => errorDump e
  | .ok d => d

/-- The `for table_name in tables` loop of `get_all_database_data`: every
table gets an entry; a failure is confined to its own entry. -/
def allDataLoop (st : Storage) : List String → PyAssoc TableDump → PyAssoc TableDump
  | [], acc => acc
  | t :: ts, acc => allDataLoop st ts (pyInsertG acc t (allDataEntry st t))

/-- The storage accesses performed for one table of `get_all_database_data`:
the column reflection, then (when reflection succeeded) the `SELECT *`. -/
def dumpTableTrace (st : Storage) (t : String) : List Access :=
  match st.getColumns t with
  | .error _ => [.reflect ("columns:" ++ t)]
  | .ok _ => [.reflect ("columns:" ++ t), .query ("SELECT * FROM " ++ t)]

/-- `get_all_database_data` (`admin_simple.py` lines 27-68). -/
def get_all_database_data (st : Storage) : PyAssoc TableDump × List Access :=
  (allDataLoop st st.tableNames [],
    .reflect "table_names" :: (st.tableNames.map (dumpTableTrace st)).flatten)

/-- The admin guard composed with an endpoint body, as FastAPI resolves
`Depends(get_admin_user)` before running the body: a guard failure produces
the 401 response with no storage access at all. -/
def withAdminGuard {α : Type} (sign : String → TokenPayload → String) (secret : String)
    (db : List User) (token : Option SignedToken) (now : Int)
    (body : User → Except HError α × List Access) : Except HError α × List Access :=
  match get_admin_user sign secret db token now with
  | .error e => (.error e, [])
  | .ok u => body u

/-- `GET /admin/api/database/structure` with its guard. -/
def endpoint_database_structure (sign : String → TokenPayload → String) (secret : String)
    (db : List User) (st : Storage) (token : Option SignedToken) (now : Int) :
    Except HError (PyAssoc TableDescriptor) × List Access :=
  withAdminGuard sign secret db token now (fun _ => get_database_structure st)

/-- `GET /admin/api/tables/\x7btable_name\x7d` with its guard and parameter defaults. -/
def endpoint_table_data (sign : String → TokenPayload → String) (secret : String)
    (db : List User) (st : Storage) (token : Option SignedToken) (now : Int)
    (table_name : String) (skip limit : Option Int) :
    Except HError TableDataResponse × List Access :=
  withAdminGuard sign secret db token now
    (fun _ => get_table_data_params st table_name skip limit)

/-- `POST /admin/api/sql/execute` with its guard. -/
def endpoint_execute_sql (sign : String → TokenPayload → String) (secret : String)
    (db : List User) (st : Storage) (token : Option SignedToken) (now : Int)
    (request_query : Option String) : Except HError SqlExecResponse × List Access :=
  withAdminGuard sign secret db token now (fun _ => execute_sql st request_query)

/-- `GET /admin/api/all-data` with its guard. -/
def endpoint_all_data (sign : String → TokenPayload → String) (secret : String)
    (db : List User) (st : Storage) (token : Option SignedToken) (now : Int) :
    Except HError (PyAssoc TableDump) × List Access :=
  withAdminGuard sign secret db token now
    (fun _ => (let (r, tr) := get_all_database_data st; (.ok r, tr)))

/-- The outcome of the `tasklist` subprocess inside `terminal_websocket`:
either it ran (stdout and return code) or raised. -/
inductive PsOutcome where
  | ran (stdout : String) (returncode : Int)
  | failed
deriving DecidableEq

/-- The `processes` string of `terminal_websocket`: the stdout on a zero
return code, a fixed message otherwise, and a fixed message when the
subprocess call raised. -/
def processesText : PsOutcome → String
  | .ran out rc => if rc = 0 then out else "No Python processes found"
  | .failed => "Unable to get process list"

/-- The system state `terminal_websocket` reads on one loop iteration. -/
structure SysEnv where
  cwd : String
  python_path : String
  db_size : Option Nat
  ps : PsOutcome
  loop_time : Int
deriving DecidableEq

/-- The `db_info` line: present only when `crm.db` exists. -/
def dbInfoText : Option Nat → String
  | none => ""
  | some n => "Database: crm.db (" ++ toString n ++ " bytes)"

/-- The terminal text sent on one iteration (`admin_simple.py` lines 98-121),
assembled from the same system inputs the f-string interpolates. -/
def renderTerminal (e : SysEnv) : String :=
  "SYSTEM STATUS - " ++ toString e.loop_time ++ "\n" ++
  "Working Directory: " ++ e.cwd ++ "\n" ++
  "Python Path: " ++ e.python_path ++ "\n" ++
  dbInfoText e.db_size ++ "\n" ++
  "RUNNING PROCESSES:\n" ++ processesText e.ps ++ "\n" ++
  "Last Update: " ++ toString e.loop_time

/-- What a WebSocket client observes: whether the connection was accepted and
the messages received. -/
structure WsSession where
  accepted : Bool
  messages : List String
deriving DecidableEq

/-- `terminal_websocket` (`admin_simple.py` lines 70-129) observed for the
first `ticks` iterations: the handler has no authentication dependency, so it
receives whatever credential the client may have presented only to ignore it;
it accepts unconditionally and streams the rendered system state. -/
def terminal_websocket (envs : Nat → SysEnv) (_credential : Option SignedToken)
    (ticks : Nat) : WsSession :=
  { accepted := true,
    messages := (List.range ticks).map (fun k => renderTerminal (envs k)) }

/-- The first whitespace-delimited word of the trimmed, uppercased query text:
the "first keyword" in the sense of a syntactic statement-kind check. -/
def firstKeyword (s : String) : String :=
  String.mk ((pyUpper (pyStrip s)).toList.takeWhile (fun c => ¬ c.isWhitespace))

/-- Whether an `Except` result is a success. -/
def isOkE {ε α : Type} : Except ε α → Bool
  | .ok _ => true
  | .error _ => false

/- ### Concrete fixtures used by witnesses and counterexamples -/

/-- A concrete stand-in for the HMAC-SHA256 signing function. -/
def wSign : String → TokenPayload → String :=
  fun secret p => secret ++ ":" ++ p.sub.getD "-" ++ ":" ++ toString p.exp

/-- A concrete stand-in for the SHA-256 hex digest. -/
def wHash : String → String := fun s => s ++ "#sha"

/-- The seeded admin identity (`create_sample_data.py` seeds
`admin@crm.com` / `admin123`). -/
def wUser : User :=
  { id := 1, email := "admin@crm.com", name := "Admin", hashed_password := "admin123#sha",
    is_active := true }

/-- An identity whose `is_active` flag is cleared. -/
def wInactive : User :=
  { id := 2, email := "bob@crm.com", name := "Bob", hashed_password := "pw#sha",
    is_active := false }

/-- A concrete credential store. -/
def wDb : List User := [wUser, wInactive]

/-- Column fixtures for the `users` table. -/
def wIdCol : ColumnInfo :=
  { name := "id", typeName := "INTEGER", nullable := false, primary_key := true,
    autoincrement := true, defaultValue := none }

/-- The `email` column fixture. -/
def wEmailCol : ColumnInfo :=
  { name := "email", typeName := "VARCHAR", nullable := false, primary_key := false,
    autoincrement := false, defaultValue := none }

/-- The rows the stub engine returns for the `users` table. -/
def wUsersRaw : RawResult :=
  { keys := ["id", "email"],
    rows := [[.intV 1, .textV "admin@crm.com"], [.intV 2, .textV "bob@crm.com"]] }

/-- A stub storage engine with one table, answering exactly the query strings
the admin handlers build in the scenarios under proof. -/
def sampleStorage : Storage :=
  { tableNames := ["users"]
    getColumns := fun t =>
      if t = "users" then .ok [wIdCol, wEmailCol] else .error "no such table"
    getForeignKeys := fun _ => .ok []
    getIndexes := fun _ => .ok []
    exec := fun q =>
      if q = "SELECT * FROM users LIMIT 100 OFFSET 0" then .ok wUsersRaw
      else if q = "SELECT * FROM users LIMIT -1 OFFSET -1" then .ok wUsersRaw
      else if q = "SELECT * FROM users" then .ok wUsersRaw
      else if q = "SELECT COUNT(*) FROM users" then
        .ok { keys := ["COUNT(*)"], rows := [[.intV 2]] }
      else if q = "SELECT 1 AS A, 2 AS A" then
        .ok { keys := ["A", "A"], rows := [[.intV 1, .intV 2]] }
      else .error "engine rejected the statement" }

/-- A stub storage engine where reflecting the table `clients` raises while
the table `users` reflects and dumps fine. -/
def brokenStorage : Storage :=
  { tableNames := ["clients", "users"]
    getColumns := fun t =>
      if t = "users" then .ok [wIdCol]
      else .error "reflection failed"
    getForeignKeys := fun _ => .ok []
    getIndexes := fun _ => .ok []
    exec := fun q =>
      if q = "SELECT * FROM users" then .ok { keys := ["id"], rows := [[.intV 1]] }
      else .error "engine rejected the statement" }

/- ### Helper lemmas -/

/-- The admin guard rejects a missing bearer token, a token whose signature
does not verify, and a token at or past its expiry, uniformly with the 401
outcome. -/
theorem get_current_user_unauth (sign : String → TokenPayload → String) (secret : String)
    (db : List User) (token : Option SignedToken) (now : Int)
    (h : token = none ∨
      ∃ t, token = some t ∧ (t.sig ≠ sign secret t.payload ∨ t.payload.exp ≤ now)) :
    get_current_user sign secret db token now = .error .unauthenticated := by
  rcases h with h | ⟨t, rfl, h⟩
  · subst h; rfl
  · have hdec : jwt_decode sign secret t now = none := by
      unfold jwt_decode
      rw [if_neg]
      rintro ⟨h1, h2⟩
      rcases h with h | h
      · exact h h1
      · omega
    simp [get_current_user, hdec]

/-- Inserting a fresh key into a Python dict appends the pair. -/
theorem pyInsertG_fresh {α : Type} (d : PyAssoc α) (k : String) (v : α)
    (h : k ∉ pyKeys d) : pyInsertG d k v = d ++ [(k, v)] := by
  have hfalse : d.any (fun p => p.1 == k) = false := by
    rw [List.any_eq_false]
    intro p hp
    simp only [Bool.not_eq_true, beq_eq_false_iff_ne, ne_eq]
    intro hk
    exact h (by simp only [pyKeys, List.mem_map]; exact ⟨p, hp, hk⟩)
  simp [pyInsertG, hfalse]

/-- Keys of `d ++ [(k, v)]`. -/
theorem pyKeys_append_single {α : Type} (d : PyAssoc α) (k : String) (v : α) :
    pyKeys (d ++ [(k, v)]) = pyKeys d ++ [k] := by
  simp [pyKeys]

/-- Once the running index passes the column list, the guarded loop leaves the
dict untouched. -/
theorem buildRowGuarded_skip (columns : List String) (vs : List SqlValue) (i : Nat)
    (d : PyDict) (h : columns.length ≤ i) : buildRowGuarded columns i vs d = d := by
  induction vs generalizing i d with
  | nil => rfl
  | cons v vs ih =>
    unfold buildRowGuarded
    rw [dif_neg (by omega)]
    exact ih (i + 1) d (by omega)

/-- The guarded serialization loop, started at index `i` on a dict whose keys
avoid the remaining (pairwise distinct) columns, appends exactly the zip of
the remaining columns with the stringified values. -/
theorem buildRowGuarded_zip (columns : List String) (vs : List SqlValue) (i : Nat)
    (d : PyDict) (hnd : (columns.drop i).Nodup)
    (hf : ∀ k ∈ columns.drop i, k ∉ pyKeys d) :
    buildRowGuarded columns i vs d = d ++ (columns.drop i).zip (vs.map serializeValue) := by
  induction vs generalizing i d with
  | nil => simp [buildRowGuarded]
  | cons v vs ih =>
    by_cases h : i < columns.length
    · have hd : columns.drop i = columns.get ⟨i, h⟩ :: columns.drop (i + 1) :=
        List.drop_eq_getElem_cons h
      have hmemc : columns.get ⟨i, h⟩ ∈ columns.drop i := by rw [hd]; exact List.mem_cons_self _ _
      have hfresh : columns.get ⟨i, h⟩ ∉ pyKeys d := hf _ hmemc
      have hnd' : (columns.drop (i + 1)).Nodup := by
        rw [hd] at hnd; exact hnd.of_cons
      have hnotin : columns.get ⟨i, h⟩ ∉ columns.drop (i + 1) := by
        rw [hd] at hnd; exact (List.nodup_cons.mp hnd).1
      have hf' : ∀ k ∈ columns.drop (i + 1), k ∉ pyKeys (d ++ [(columns.get ⟨i, h⟩,
          serializeValue v)]) := by
        intro k hk
        rw [pyKeys_append_single]
        simp only [List.mem_append, List.mem_singleton]
        rintro (hkd | hkc)
        · exact hf k (by rw [hd]; exact List.mem_cons_of_mem _ hk) hkd
        · exact hnotin (hkc ▸ hk)
      unfold buildRowGuarded
      rw [dif_pos h, pyInsertG_fresh d _ _ hfresh, ih (i + 1) _ hnd' hf', hd,
        List.map_cons, List.zip_cons_cons, List.append_assoc, List.singleton_append]
    · have hd : columns.drop i = [] := List.drop_eq_nil_of_le (by omega)
      unfold buildRowGuarded
      rw [dif_neg h, buildRowGuarded_skip columns vs (i + 1) d (by omega), hd]
      simp

/-- One step of the unguarded loop while the index is in range. -/
theorem buildRowStrict_cons (columns : List String) (i : Nat) (h : i < columns.length)
    (v : SqlValue) (vs : List SqlValue) (d : PyDict) :
    buildRowStrict columns i (v :: vs) d =
      buildRowStrict columns (i + 1) vs (pyInsertG d (columns.get ⟨i, h⟩) (serializeValue v)) := by
  conv_lhs => unfold buildRowStrict
  rw [List.get?_eq_get h]

/-- The unguarded serialization loop agrees with the zip as well, provided the
row does not run past the column list (otherwise it raises `IndexError`). -/
theorem buildRowStrict_zip (columns : List String) (vs : List SqlValue) (i : Nat)
    (d : PyDict) (hnd : (columns.drop i).Nodup)
    (hf : ∀ k ∈ columns.drop i, k ∉ pyKeys d)
    (hlen : vs.length ≤ (columns.drop i).length) :
    buildRowStrict columns i vs d =
      .ok (d ++ (columns.drop i).zip (vs.map serializeValue)) := by
  induction vs generalizing i d with
  | nil => simp [buildRowStrict]
  | cons v vs ih =>
    have h : i < columns.length := by
      by_contra hc
      rw [List.drop_eq_nil_of_le (by omega)] at hlen
      simp at hlen
    have hd : columns.drop i = columns.get ⟨i, h⟩ :: columns.drop (i + 1) :=
      List.drop_eq_getElem_cons h
    have hmemc : columns.get ⟨i, h⟩ ∈ columns.drop i := by rw [hd]; exact List.mem_cons_self _ _
    have hfresh : columns.get ⟨i, h⟩ ∉ pyKeys d := hf _ hmemc
    have hnd' : (columns.drop (i + 1)).Nodup := by
      rw [hd] at hnd; exact hnd.of_cons
    have hnotin : columns.get ⟨i, h⟩ ∉ columns.drop (i + 1) := by
      rw [hd] at hnd; exact (List.nodup_cons.mp hnd).1
    have hf' : ∀ k ∈ columns.drop (i + 1), k ∉ pyKeys (d ++ [(columns.get ⟨i, h⟩,
        serializeValue v)]) := by
      intro k hk
      rw [pyKeys_append_single]
      simp only [List.mem_append, List.mem_singleton]
      rintro (hkd | hkc)
      · exact hf k (by rw [hd]; exact List.mem_cons_of_mem _ hk) hkd
      · exact hnotin (hkc ▸ hk)
    have hlen' : vs.length ≤ (columns.drop (i + 1)).length := by
      rw [hd] at hlen
      simp only [List.length_cons] at hlen
      omega
    rw [buildRowStrict_cons columns i h v vs d, pyInsertG_fresh d _ _ hfresh,
      ih (i + 1) _ hnd' hf' hlen', hd, List.map_cons, List.zip_cons_cons,
      List.append_assoc, List.singleton_append]

/-- One row of the guarded (`execute_sql`) serialization is exactly the
columns zipped with the stringified values, when the column names are
pairwise distinct. -/
theorem rowToDictGuarded_zip (columns : List String) (row : List SqlValue)
    (hnd : columns.Nodup) :
    rowToDictGuarded columns row = columns.zip (row.map serializeValue) := by
  have := buildRowGuarded_zip columns row 0 [] (by simpa) (by simp [pyKeys])
  simpa [rowToDictGuarded] using this

/-- One row of the unguarded (`get_table_data` / all-data) serialization. -/
theorem rowToDictStrict_zip (columns : List String) (row : List SqlValue)
    (hnd : columns.Nodup) (hlen : row.length ≤ columns.length) :
    rowToDictStrict columns row = .ok (columns.zip (row.map serializeValue)) := by
  have := buildRowStrict_zip columns row 0 [] (by simpa) (by simp [pyKeys]) (by simpa)
  simpa [rowToDictStrict] using this

/-- Whole-result unguarded serialization. -/
theorem rowsToDictsStrict_zip (columns : List String) (rows : List (List SqlValue))
    (hnd : columns.Nodup) (hlen : ∀ r ∈ rows, r.length ≤ columns.length) :
    rowsToDictsStrict columns rows =
      .ok (rows.map (fun r => columns.zip (r.map serializeValue))) := by
  induction rows with
  | nil => rfl
  | cons r rs ih =>
    have h1 := rowToDictStrict_zip columns r hnd (hlen r (List.mem_cons_self _ _))
    have h2 := ih (fun x hx => hlen x (List.mem_cons_of_mem _ hx))
    simp only [rowsToDictsStrict, h1, h2]
    rfl

/-- The all-data loop over pairwise-distinct table names, on an accumulator
avoiding those names, appends one entry per table, each computed from that
table alone. -/
theorem allDataLoop_eq (st : Storage) (ts : List String) (acc : PyAssoc TableDump)
    (hnd : ts.Nodup) (hdisj : ∀ t ∈ ts, t ∉ pyKeys acc) :
    allDataLoop st ts acc = acc ++ ts.map (fun t => (t, allDataEntry st t)) := by
  induction ts generalizing acc with
  | nil => simp [allDataLoop]
  | cons t ts ih =>
    have hfresh : t ∉ pyKeys acc := hdisj t (List.mem_cons_self _ _)
    have hf' : ∀ x ∈ ts, x ∉ pyKeys (acc ++ [(t, allDataEntry st t)]) := by
      intro x hx
      rw [pyKeys_append_single]
      simp only [List.mem_append, List.mem_singleton]
      rintro (hxd | hxt)
      · exact hdisj x (List.mem_cons_of_mem _ hx) hxd
      · exact (List.nodup_cons.mp hnd).1 (hxt ▸ hx)
    unfold allDataLoop
    rw [pyInsertG_fresh acc t _ hfresh, ih _ hnd.of_cons hf']
    simp

/-- Looking a name up in a dict formed by mapping pairwise-distinct names to
entries retrieves that name's own entry. -/
theorem pyLookup_map_self {α : Type} (f : String → α) (names : List String) (t : String)
    (hnd : names.Nodup) (ht : t ∈ names) :
    pyLookup (names.map (fun n => (n, f n))) t = some (f t) := by
  induction names with
  | nil => cases ht
  | cons n ns ih =>
    by_cases hnt : n = t
    · subst hnt
      simp [pyLookup, List.find?]
    · have hfalse : (n == t) = false := by simpa using hnt
      have htn : t ∈ ns := by
        rcases List.mem_cons.mp ht with rfl | htn
        · exact absurd rfl hnt
        · exact htn
      have hrec := ih hnd.of_cons htn
      simpa [pyLookup, List.find?, hfalse] using hrec

/-- A token for the inactive user `bob@crm.com`, signed with the fixture key
and expiring at time 1800. -/
def wTokenBob : SignedToken :=
  create_access_token wSign "k" (some "bob@crm.com") 0 (some 1800)

/- ### Claim theorems -/

/-- Claim C1: every admin schema or data endpoint (database structure, table
browse, ad-hoc SQL execute, all-data), presented with no bearer token, a
token whose signature does not verify, or an expired token, fails with the
401 Unauthenticated outcome and an empty storage-access trace — before any
schema reflection or table-data access; only a validating token reaches the
delegate operation. -/
theorem admin_endpoints_reject_before_storage
    (sign : String → TokenPayload → String) (secret : String) (db : List User)
    (st : Storage) (token : Option SignedToken) (now : Int) (table_name : String)
    (skip limit : Option Int) (q : Option String)
    (h : token = none ∨
      ∃ t, token = some t ∧ (t.sig ≠ sign secret t.payload ∨ t.payload.exp ≤ now)) :
    endpoint_database_structure sign secret db st token now =
      (.error .unauthenticated, []) ∧
    endpoint_table_data sign secret db st token now table_name skip limit =
      (.error .unauthenticated, []) ∧
    endpoint_execute_sql sign secret db st token now q = (.error .unauthenticated, []) ∧
    endpoint_all_data sign secret db st token now = (.error .unauthenticated, []) := by
  have hg : get_admin_user sign secret db token now = .error .unauthenticated :=
    get_current_user_unauth sign secret db token now h
  refine ⟨?_, ?_, ?_, ?_⟩ <;>
    simp [endpoint_database_structure, endpoint_table_data, endpoint_execute_sql,
      endpoint_all_data, withAdminGuard, hg]

/-- Witness for C1 at a concrete input: no token presented. -/
theorem admin_endpoints_reject_before_storage_witness :
    ((none : Option SignedToken) = none ∨
      ∃ t, (none : Option SignedToken) = some t ∧
        (t.sig ≠ wSign "k" t.payload ∨ t.payload.exp ≤ (0 : Int))) ∧
    (endpoint_database_structure wSign "k" wDb sampleStorage none 0 =
        (.error .unauthenticated, []) ∧
      endpoint_table_data wSign "k" wDb sampleStorage none 0 "users" none none =
        (.error .unauthenticated, []) ∧
      endpoint_execute_sql wSign "k" wDb sampleStorage none 0 (some "SELECT 1") =
        (.error .unauthenticated, []) ∧
      endpoint_all_data wSign "k" wDb sampleStorage none 0 =
        (.error .unauthenticated, [])) :=
  ⟨Or.inl rfl,
    admin_endpoints_reject_before_storage wSign "k" wDb sampleStorage none 0 "users"
      none none (some "SELECT 1") (Or.inl rfl)⟩

/-- Claim C2 counterexample: the read-only gate is a character-prefix check,
not a first-keyword check.  The raw query "SELECTED 1" has first keyword
SELECTED, which is not SELECT, yet `execute_sql` does not reject it: the
storage engine is invoked on it. -/
theorem execute_sql_first_keyword_counterexample :
    firstKeyword "SELECTED 1" ≠ "SELECT" ∧
    (execute_sql sampleStorage (some "SELECTED 1")).2 = [.query "SELECTED 1"] ∧
    (execute_sql sampleStorage (some "SELECTED 1")).1 =
      .error (.badRequest "Query execution error: engine rejected the statement") ∧
    "Query execution error: engine rejected the statement" ≠
      "Only SELECT queries are allowed" :=
  ⟨by decide, rfl, rfl, by decide⟩

/-- Claim C2 (amended): `execute_sql` trims surrounding whitespace and fails
with the empty-query rejection when nothing remains, performing no storage
access; and when the trimmed text, uppercased, does not start with the
character prefix SELECT, it fails with the read-only rejection, again with no
storage access. -/
theorem execute_sql_rejects (st : Storage) (raw : Option String) :
    (pyStrip (raw.getD "") = "" →
      execute_sql st raw = (.error (.badRequest "Query cannot be empty"), [])) ∧
    (pyStrip (raw.getD "") ≠ "" →
      pyStartsWith (pyUpper (pyStrip (raw.getD ""))) "SELECT" = false →
      execute_sql st raw =
        (.error (.badRequest "Only SELECT queries are allowed"), [])) := by
  constructor
  · intro h
    simp [execute_sql, h]
  · intro h1 h2
    simp [execute_sql, h1, h2]

/-- Witness for C2 (amended) on a whitespace-only query and on a mutating
statement. -/
theorem execute_sql_rejects_witness :
    (pyStrip "   " = "" ∧
      execute_sql sampleStorage (some "   ") =
        (.error (.badRequest "Query cannot be empty"), [])) ∧
    (pyStrip "DROP TABLE users" ≠ "" ∧
      pyStartsWith (pyUpper (pyStrip "DROP TABLE users")) "SELECT" = false ∧
      execute_sql sampleStorage (some "DROP TABLE users") =
        (.error (.badRequest "Only SELECT queries are allowed"), [])) :=
  ⟨⟨by decide, (execute_sql_rejects sampleStorage (some "   ")).1 (by decide)⟩,
    ⟨by decide, by decide,
      (execute_sql_rejects sampleStorage (some "DROP TABLE users")).2
        (by decide) (by decide)⟩⟩

/-- Claim C3: for an identity present in the credential store whose stored
digest matches the presented password, authenticating, issuing a token, and
validating that token before it expires resolves a user with the same email
the authentication started from. -/
theorem auth_token_roundtrip (sha256hex : String → String)
    (sign : String → TokenPayload → String) (secret : String) (db : List User)
    (email password : String) (u : User) (t_login t_check : Int)
    (hfind : first_user_with_email db email = some u)
    (hpw : sha256hex password = u.hashed_password)
    (hfresh : t_check < t_login + ACCESS_TOKEN_EXPIRE_MINUTES * 60) :
    ∃ tok : SignedToken,
      login_for_access_token sha256hex sign secret db email password t_login = .ok tok ∧
      ∃ u2 : User, get_current_user sign secret db (some tok) t_check = .ok u2 ∧
        u2.email = email := by
  have hf : db.find? (fun x => x.email == email) = some u := hfind
  have hemail : u.email = email := by simpa using List.find?_some hf
  have hauth : authenticate_user sha256hex db email password = some u := by
    simp [authenticate_user, hfind, verify_password, hpw]
  refine ⟨create_access_token sign secret (some u.email) t_login
      (some (ACCESS_TOKEN_EXPIRE_MINUTES * 60)), ?_, u, ?_, hemail⟩
  · simp [login_for_access_token, hauth]
  · have hdec : jwt_decode sign secret
        (create_access_token sign secret (some u.email) t_login
          (some (ACCESS_TOKEN_EXPIRE_MINUTES * 60))) t_check =
        some { sub := some u.email, exp := t_login + ACCESS_TOKEN_EXPIRE_MINUTES * 60 } := by
      unfold jwt_decode create_access_token
      split
      · rfl
      · next hcond => exact absurd ⟨rfl, hfresh⟩ hcond
    have hlook : first_user_with_email db u.email = some u := by rw [hemail]; exact hfind
    simp [get_current_user, hdec, hlook]

/-- Witness for C3 on the seeded admin identity. -/
theorem auth_token_roundtrip_witness :
    first_user_with_email wDb "admin@crm.com" = some wUser ∧
    wHash "admin123" = wUser.hashed_password ∧
    (60 : Int) < 0 + ACCESS_TOKEN_EXPIRE_MINUTES * 60 ∧
    (∃ tok : SignedToken,
      login_for_access_token wHash wSign "k" wDb "admin@crm.com" "admin123" 0 =
        .ok tok ∧
      ∃ u2 : User, get_current_user wSign "k" wDb (some tok) 60 = .ok u2 ∧
        u2.email = "admin@crm.com") :=
  ⟨rfl, rfl, by decide,
    auth_token_roundtrip wHash wSign "k" wDb "admin@crm.com" "admin123" wUser 0 60
      rfl rfl (by decide)⟩

/-- Claim C4: token validation fails with the 401 outcome as soon as the
current time reaches `expires_at`, even when the signature is valid and the
subject exists; a token is accepted only when the current time is strictly
before `expires_at`. -/
theorem token_expiry_boundary (sign : String → TokenPayload → String) (secret : String)
    (db : List User) (t : SignedToken) (now : Int) :
    (t.payload.exp ≤ now →
      get_current_user sign secret db (some t) now = .error .unauthenticated) ∧
    (∀ u : User, get_current_user sign secret db (some t) now = .ok u →
      now < t.payload.exp) := by
  constructor
  · intro h
    exact get_current_user_unauth sign secret db (some t) now (Or.inr ⟨t, rfl, Or.inr h⟩)
  · intro u hu
    by_contra hc
    rw [get_current_user_unauth sign secret db (some t) now
      (Or.inr ⟨t, rfl, Or.inr (by omega)⟩)] at hu
    simp at hu

/-- Witness for C4: the fixture token is rejected at its expiry instant and
accepted strictly before it. -/
theorem token_expiry_boundary_witness :
    (wTokenBob.payload.exp ≤ (1800 : Int) ∧
      get_current_user wSign "k" wDb (some wTokenBob) 1800 = .error .unauthenticated) ∧
    (get_current_user wSign "k" wDb (some wTokenBob) 100 = .ok wInactive ∧
      (100 : Int) < wTokenBob.payload.exp) :=
  ⟨⟨by decide, (token_expiry_boundary wSign "k" wDb wTokenBob 1800).1 (by decide)⟩,
    ⟨rfl, (token_expiry_boundary wSign "k" wDb wTokenBob 100).2 wInactive rfl⟩⟩

/-- Claim C5 counterexample: the guard performs no activity check.  The store
marks `bob@crm.com` inactive, the presented token is valid and unexpired, yet
the boundary resolves the inactive identity and the structure endpoint is
delegated (its storage-access trace is nonempty). -/
theorem inactive_user_delegated_counterexample :
    wInactive.is_active = false ∧
    get_admin_user wSign "k" wDb (some wTokenBob) 100 = .ok wInactive ∧
    (endpoint_database_structure wSign "k" wDb sampleStorage (some wTokenBob) 100).2 ≠
      [] :=
  ⟨rfl, rfl, by decide⟩

/-- Claim C5 (amended): when the admin session boundary succeeds, the
identity it resolves exists in the credential store; no activity check is
performed, so a valid token for an inactive identity is delegated as well
(see the counterexample). -/
theorem guard_resolves_stored_identity (sign : String → TokenPayload → String)
    (secret : String) (db : List User) (token : Option SignedToken) (now : Int)
    (u : User) (h : get_current_user sign secret db token now = .ok u) : u ∈ db := by
  cases token with
  | none => simp [get_current_user] at h
  | some t =>
    rcases hdec : jwt_decode sign secret t now with _ | p
    · simp [get_current_user, hdec] at h
    · rcases hsub : p.sub with _ | email
      · simp [get_current_user, hdec, hsub] at h
      · rcases hfind : first_user_with_email db email with _ | u2
        · simp [get_current_user, hdec, hsub, hfind] at h
        · have hu : u2 = u := by
            simpa [get_current_user, hdec, hsub, hfind] using h
          exact hu ▸ List.mem_of_find?_eq_some hfind

/-- Witness for C5 (amended): the resolved inactive identity is a store
record. -/
theorem guard_resolves_stored_identity_witness :
    get_current_user wSign "k" wDb (some wTokenBob) 100 = .ok wInactive ∧
    wInactive ∈ wDb :=
  ⟨rfl, guard_resolves_stored_identity wSign "k" wDb (some wTokenBob) 100 wInactive rfl⟩

/-- Claim C6 counterexample: in `brokenStorage` exactly one table
(`clients`) fails to reflect while `users` reflects fine, yet
`get_database_structure` — the describe-all over `TableDescriptor` entries —
returns no mapping at all: the single failure aborts the whole reflection
with a server error instead of an error-marker entry. -/
theorem structure_reflection_aborts_counterexample :
    brokenStorage.tableNames = ["clients", "users"] ∧
    isOkE (reflectTable brokenStorage "clients") = false ∧
    isOkE (reflectTable brokenStorage "users") = true ∧
    (get_database_structure brokenStorage).1 =
      .error (.serverError "reflection failed") :=
  ⟨rfl, rfl, rfl, rfl⟩

/-- Claim C6 (amended): only the all-data endpoint isolates a per-table
failure: its result keeps one entry per live table, the failing table maps to
the error marker carrying the reason, and every other table maps to its full
data entry, computed from that table alone.  The structure endpoint
(describe-all over `TableDescriptor`) aborts wholly on a single reflection
failure, as the counterexample shows. -/
theorem all_data_isolates_failure (st : Storage) (hnd : st.tableNames.Nodup) :
    pyKeys (get_all_database_data st).1 = st.tableNames ∧
    (∀ t ∈ st.tableNames, ∀ e : String, dumpTable st t = .error e →
      pyLookup (get_all_database_data st).1 t = some (errorDump e)) ∧
    (∀ t ∈ st.tableNames, ∀ d : TableDump, dumpTable st t = .ok d →
      pyLookup (get_all_database_data st).1 t = some d) := by
  have hloop : (get_all_database_data st).1 =
      st.tableNames.map (fun t => (t, allDataEntry st t)) := by
    have hrun := allDataLoop_eq st st.tableNames [] hnd (by simp [pyKeys])
    simpa [get_all_database_data] using hrun
  refine ⟨?_, ?_, ?_⟩
  · rw [hloop]
    simp only [pyKeys, List.map_map]
    have hid : (Prod.fst ∘ fun t : String => (t, allDataEntry st t)) = id := rfl
    rw [hid, List.map_id]
  · intro t ht e he
    rw [hloop, pyLookup_map_self _ _ _ hnd ht]
    simp [allDataEntry, he]
  · intro t ht d hd2
    rw [hloop, pyLookup_map_self _ _ _ hnd ht]
    simp [allDataEntry, hd2]

/-- Witness for C6 (amended) on the broken fixture: the failing table keeps
its error marker, the healthy table keeps its full dump. -/
theorem all_data_isolates_failure_witness :
    brokenStorage.tableNames.Nodup ∧
    ("clients" ∈ brokenStorage.tableNames ∧
      dumpTable brokenStorage "clients" = .error "reflection failed" ∧
      pyLookup (get_all_database_data brokenStorage).1 "clients" =
        some (errorDump "reflection failed")) ∧
    ("users" ∈ brokenStorage.tableNames ∧
      dumpTable brokenStorage "users" =
        .ok { error := none, columns := ["id"], data := [[("id", some "1")]],
              count := 1 } ∧
      pyLookup (get_all_database_data brokenStorage).1 "users" =
        some { error := none, columns := ["id"], data := [[("id", some "1")]],
               count := 1 }) :=
  ⟨by decide,
    ⟨by decide, rfl,
      (all_data_isolates_failure brokenStorage (by decide)).2.1 "clients" (by decide)
        "reflection failed" rfl⟩,
    ⟨by decide, rfl,
      (all_data_isolates_failure brokenStorage (by decide)).2.2 "users" (by decide)
        { error := none, columns := ["id"], data := [[("id", some "1")]], count := 1 }
        rfl⟩⟩

/-- Claim C7 counterexample: a negative limit and offset are not rejected:
`get_table_data` interpolates them into the executed query string and
returns a success. -/
theorem negative_params_executed_counterexample :
    ((-1 : Int) < 0) ∧
    isOkE (get_table_data sampleStorage "users" (-1) (-1)).1 = true ∧
    queriesOf (get_table_data sampleStorage "users" (-1) (-1)).2 =
      ["SELECT * FROM users LIMIT -1 OFFSET -1", "SELECT COUNT(*) FROM users"] :=
  ⟨by decide, rfl, rfl⟩

/-- Claim C7 (amended): omitted `limit`/`offset` take the signature defaults
100 and 0; any integer values, negative ones included, are interpolated into
the executed data query rather than rejected; and a successful browse carries
a `total_count` taken from the separate count query over the whole table. -/
theorem browse_defaults_and_total_count (st : Storage) (table_name : String)
    (skip limit : Int) (r rc : RawResult) (cols : List ColumnInfo) (rows : List PyDict)
    (htn : table_name ∈ st.tableNames)
    (hex : st.exec (table_data_query table_name limit skip) = .ok r)
    (hcols : st.getColumns table_name = .ok cols)
    (hrows : rowsToDictsStrict (cols.map ColumnInfo.name) r.rows = .ok rows)
    (hcount : st.exec (count_query table_name) = .ok rc) :
    get_table_data_params st table_name none none = get_table_data st table_name 0 100 ∧
    get_table_data st table_name skip limit =
      (.ok { table_name := table_name, columns := cols.map ColumnInfo.name, data := rows,
              total_count := scalar rc, showing := rows.length },
        [.reflect "table_names", .query (table_data_query table_name limit skip),
          .reflect ("columns:" ++ table_name), .query (count_query table_name)]) := by
  refine ⟨rfl, ?_⟩
  unfold get_table_data
  rw [if_pos htn]
  simp only [hex, hcols, hrows, hcount]

/-- Witness for C7 (amended) with a negative offset and limit. -/
theorem browse_defaults_and_total_count_witness :
    ("users" ∈ sampleStorage.tableNames ∧
      sampleStorage.exec (table_data_query "users" (-1) (-1)) = .ok wUsersRaw ∧
      sampleStorage.getColumns "users" = .ok [wIdCol, wEmailCol] ∧
      rowsToDictsStrict ([wIdCol, wEmailCol].map ColumnInfo.name) wUsersRaw.rows =
        .ok [[("id", some "1"), ("email", some "admin@crm.com")],
             [("id", some "2"), ("email", some "bob@crm.com")]] ∧
      sampleStorage.exec (count_query "users") =
        .ok { keys := ["COUNT(*)"], rows := [[.intV 2]] }) ∧
    (get_table_data_params sampleStorage "users" none none =
        get_table_data sampleStorage "users" 0 100 ∧
      get_table_data sampleStorage "users" (-1) (-1) =
        (.ok { table_name := "users", columns := ["id", "email"],
                data := [[("id", some "1"), ("email", some "admin@crm.com")],
                         [("id", some "2"), ("email", some "bob@crm.com")]],
                total_count := some (.intV 2), showing := 2 },
          [.reflect "table_names", .query (table_data_query "users" (-1) (-1)),
            .reflect "columns:users", .query (count_query "users")])) :=
  ⟨⟨by decide, rfl, rfl, rfl, rfl⟩,
    browse_defaults_and_total_count sampleStorage "users" (-1) (-1) wUsersRaw
      { keys := ["COUNT(*)"], rows := [[.intV 2]] } [wIdCol, wEmailCol]
      [[("id", some "1"), ("email", some "admin@crm.com")],
       [("id", some "2"), ("email", some "bob@crm.com")]]
      (by decide) rfl rfl rfl rfl⟩

/-- Claim C8: a table name absent from the live table list fails browse (and
the spec-modelled single-table describe) with the 404 UnknownTable outcome;
the access trace holds the initial catalog reflection only, so no query
string is ever built or executed with the unchecked name. -/
theorem unknown_table_rejected (st : Storage) (table_name : String) (skip limit : Int)
    (h : table_name ∉ st.tableNames) :
    get_table_data st table_name skip limit =
      (.error (.notFound "Table not found"), [.reflect "table_names"]) ∧
    describe st table_name =
      (.error (.notFound "Table not found"), [.reflect "table_names"]) ∧
    queriesOf (get_table_data st table_name skip limit).2 = [] := by
  have h1 : get_table_data st table_name skip limit =
      (.error (.notFound "Table not found"), [.reflect "table_names"]) := by
    unfold get_table_data
    rw [if_neg h]
  refine ⟨h1, ?_, by rw [h1]; rfl⟩
  unfold describe
  rw [if_neg h]

/-- Witness for C8 on a name the stub engine does not list. -/
theorem unknown_table_rejected_witness :
    ("nope" ∉ sampleStorage.tableNames) ∧
    (get_table_data sampleStorage "nope" 0 100 =
        (.error (.notFound "Table not found"), [.reflect "table_names"]) ∧
      describe sampleStorage "nope" =
        (.error (.notFound "Table not found"), [.reflect "table_names"]) ∧
      queriesOf (get_table_data sampleStorage "nope" 0 100).2 = []) :=
  ⟨by decide, unknown_table_rejected sampleStorage "nope" 0 100 (by decide)⟩

/-- Claim C9 counterexample: a query aliasing two result columns to the same
name lists columns ["A", "A"], but the serialized row, being a dict, holds a
single "A" entry (the later value overwrote the earlier): its keys are not
the listed columns. -/
theorem duplicate_columns_counterexample :
    (execute_sql sampleStorage (some "SELECT 1 AS A, 2 AS A")).1 =
      .ok { success := true, columns := ["A", "A"], data := [[("A", some "2")]],
            row_count := 1 } ∧
    pyKeys [("A", (some "2" : Option String))] ≠ ["A", "A"] :=
  ⟨rfl, by decide⟩

/-- Claim C9 (amended): for a result set whose column names are pairwise
distinct and whose rows each carry one value per column, both `execute_sql`
and `get_table_data` serialize every row as the association of exactly the
listed columns, in order, to the stringified-scalar-or-null values; when
column names repeat, a row keeps one entry per distinct name (the later value
overwrites the earlier), as the counterexample shows. -/
theorem result_rows_shape (st : Storage) :
    (∀ raw : Option String, ∀ r : RawResult,
      pyStrip (raw.getD "") ≠ "" →
      pyStartsWith (pyUpper (pyStrip (raw.getD ""))) "SELECT" = true →
      st.exec (pyStrip (raw.getD "")) = .ok r →
      r.keys.Nodup →
      (∀ row ∈ r.rows, row.length = r.keys.length) →
      (execute_sql st raw).1 =
        .ok { success := true, columns := r.keys,
              data := r.rows.map (fun row => r.keys.zip (row.map serializeValue)),
              row_count := r.rows.length }) ∧
    (∀ table_name : String, ∀ skip limit : Int, ∀ r rc : RawResult,
      ∀ cols : List ColumnInfo,
      table_name ∈ st.tableNames →
      st.exec (table_data_query table_name limit skip) = .ok r →
      st.getColumns table_name = .ok cols →
      (cols.map ColumnInfo.name).Nodup →
      (∀ row ∈ r.rows, row.length = (cols.map ColumnInfo.name).length) →
      st.exec (count_query table_name) = .ok rc →
      (get_table_data st table_name skip limit).1 =
        .ok { table_name := table_name, columns := cols.map ColumnInfo.name,
              data := r.rows.map (fun row =>
                (cols.map ColumnInfo.name).zip (row.map serializeValue)),
              total_count := scalar rc, showing := r.rows.length }) := by
  constructor
  · intro raw r h1 h2 hex hnd hlen
    have hrows : (r.rows.map (rowToDictGuarded r.keys)) =
        r.rows.map (fun row => r.keys.zip (row.map serializeValue)) :=
      List.map_congr_left (fun row _ => rowToDictGuarded_zip r.keys row hnd)
    simp [execute_sql, h1, h2, hex, hrows]
  · intro table_name skip limit r rc cols htn hex hcols hnd hlen hcount
    have hrows : rowsToDictsStrict (cols.map ColumnInfo.name) r.rows =
        .ok (r.rows.map (fun row =>
          (cols.map ColumnInfo.name).zip (row.map serializeValue))) :=
      rowsToDictsStrict_zip (cols.map ColumnInfo.name) r.rows hnd
        (fun row hr => le_of_eq (hlen row hr))
    unfold get_table_data
    rw [if_pos htn]
    simp [hex, hcols, hrows, hcount]

/-- Witness for C9 (amended) on the stub engine, for both the ad-hoc query
path and the browse path. -/
theorem result_rows_shape_witness :
    (pyStrip "SELECT * FROM users" ≠ "" ∧
      pyStartsWith (pyUpper (pyStrip "SELECT * FROM users")) "SELECT" = true ∧
      sampleStorage.exec (pyStrip "SELECT * FROM users") = .ok wUsersRaw ∧
      wUsersRaw.keys.Nodup ∧
      (∀ row ∈ wUsersRaw.rows, row.length = wUsersRaw.keys.length) ∧
      (execute_sql sampleStorage (some "SELECT * FROM users")).1 =
        .ok { success := true, columns := wUsersRaw.keys,
              data := wUsersRaw.rows.map (fun row =>
                wUsersRaw.keys.zip (row.map serializeValue)),
              row_count := wUsersRaw.rows.length }) ∧
    (get_table_data sampleStorage "users" 0 100).1 =
      .ok { table_name := "users", columns := [wIdCol, wEmailCol].map ColumnInfo.name,
            data := wUsersRaw.rows.map (fun row =>
              ([wIdCol, wEmailCol].map ColumnInfo.name).zip (row.map serializeValue)),
            total_count := scalar { keys := ["COUNT(*)"], rows := [[.intV 2]] },
            showing := wUsersRaw.rows.length } :=
  ⟨⟨by decide, by decide, rfl, by decide, by decide,
      (result_rows_shape sampleStorage).1 (some "SELECT * FROM users") wUsersRaw
        (by decide) (by decide) rfl (by decide) (by decide)⟩,
    (result_rows_shape sampleStorage).2 "users" 0 100 wUsersRaw
      { keys := ["COUNT(*)"], rows := [[.intV 2]] } [wIdCol, wEmailCol]
      (by decide) rfl rfl (by decide) (by decide) rfl⟩

/-- Claim C10: the live-terminal WebSocket endpoint under the admin prefix
has no authentication dependency: whatever credential is or is not presented,
the connection is accepted and the streamed system information is identical —
the observable session does not depend on any authentication input. -/
theorem terminal_ws_ignores_credentials (envs : Nat → SysEnv)
    (c1 c2 : Option SignedToken) (ticks : Nat) :
    terminal_websocket envs c1 ticks = terminal_websocket envs c2 ticks ∧
    (terminal_websocket envs c1 ticks).accepted = true :=
  ⟨rfl, rfl⟩

end CrmBackend

